import Mathlib

/-!
Verification development for the Social_Finder application (src/app.py).

The Python source is shallowly embedded below.  External HTTP calls are
modelled by explicit outcome values (the behaviour of `requests.get` /
`requests.post`): either the call raises a transport-level exception, or it
yields a response with a status code and a body that is parseable JSON or
not.  Python exceptions are modelled with `Except PyExc`; a Python function
that cannot raise is embedded as a total Lean function.  JSON values are an
inductive type with objects as association lists, so `dict.get(k, default)`
becomes a lookup with a default.  The call to the generative-text model and
pandas date parsing are opaque collaborators and enter as function
parameters; the side-effecting call to the text model is instrumented with
an explicit call log so that "the call is issued exactly once" is provable.
-/

set_option autoImplicit false
set_option linter.unusedVariables false

namespace SocialFinder

/-- JSON values; objects are association lists of key-value pairs,
mirroring Python dicts as produced by `response.json()`. -/
inductive Json where
  | str (s : String)
  | num (n : Int)
  | bool (b : Bool)
  | null
  | arr (elems : List Json)
  | dict (entries : List (String × Json))

/-- Python dict lookup `d.get(k, default)` on a JSON object. -/
def dictGet (entries : List (String × Json)) (k : String) (dflt : Json) : Json :=
  (List.lookup k entries).getD dflt

/-- Python truthiness of a JSON value (`if p[Caption]:` in app.py):
empty string, zero, False, None, empty list and empty dict are falsy. -/
def Json.truthy : Json → Bool
  | .str s => !s.isEmpty
  | .num n => n != 0
  | .bool b => b
  | .null => false
  | .arr l => !l.isEmpty
  | .dict e => !e.isEmpty

/-- Python `str(x)` as used when a JSON value is interpolated into an
f-string.  Faithful on strings, numbers, booleans and None; containers are
rendered as an opaque display token (the claims only exercise strings). -/
def Json.pyStr : Json → String
  | .str s => s
  | .num n => toString n
  | .bool b => if b then "True" else "False"
  | .null => "None"
  | .arr _ => "<list>"
  | .dict _ => "<dict>"

/-- Python exceptions that the embedded fragments can raise. -/
inductive PyExc where
  | transport (msg : String)
  | valueError
  | attrError
  | typeError
deriving Repr, DecidableEq

/-- Outcome of one HTTP call made with the requests library:
either the call itself raises (network failure, timeout), or a response
arrives with a status code and a body (`none` = body is not valid JSON). -/
inductive HttpResult where
  | raise (msg : String)
  | resp (status : Nat) (body : Option Json)

/-- Bool test that `cs` starts with `ns` (character lists). -/
def leadsWith : List Char → List Char → Bool
  | [], _ => true
  | _ :: _, [] => false
  | a :: as, b :: bs => a = b && leadsWith as bs

/-- Scan all suffixes of the haystack for the needle as a leading block. -/
def scanSub (ns : List Char) : List Char → Bool
  | [] => ns.isEmpty
  | c :: rest => leadsWith ns (c :: rest) || scanSub ns rest

/-- Python substring test `kw in s` on strings. -/
def pyIn (kw s : String) : Bool :=
  scanSub kw.toList s.toList

/-- app.py lines 30-34, `search_google`: performs one GET and returns
`res.json().get("items", [])`.  There is no exception handler and no
raise_for_status: a raising transport call propagates, a non-JSON body makes
`res.json()` raise ValueError, and `.get` on a non-dict body raises
AttributeError.  An "items" value that is not a list is folded to a
TypeError here: in Python it is returned as-is and then fails when the
caller iterates it and calls `.get` on its elements. -/
def search_google (outcome : HttpResult) : Except PyExc (List Json) :=
  match outcome with
  | .raise m => .error (.transport m)
  | .resp _ body =>
    match body with
    | none => .error .valueError
    | some j =>
      match j with
      | .dict e =>
        match List.lookup "items" e with
        | none => .ok []
        | some (.arr l) => .ok l
        | some _ => .error .typeError
      | _ => .error .attrError

/-- app.py lines 36-41, `extract_link`: scan the results in order and
return the first link containing the keyword, else the empty string.
`item.get("link", "")` requires each item to be a dict (AttributeError
otherwise), and `keyword in link` requires the link value to be a string
(TypeError otherwise). -/
def extract_link : List Json → String → Except PyExc String
  | [], _ => .ok ""
  | item :: rest, keyword =>
    match item with
    | .dict e =>
      match dictGet e "link" (.str "") with
      | .str link => if pyIn keyword link then .ok link else extract_link rest keyword
      | _ => .error .typeError
    | _ => .error .attrError

/-- One output row of the brand link finder (app.py line 47): a dict with
exactly the keys Brand Name, Website, Instagram, LinkedIn. -/
structure Row where
  brandName : String
  website : String
  instagram : String
  linkedin : String
deriving Repr, DecidableEq

/-- app.py lines 43-47, `fetch_links_for_brand`: three sequential searches
and keyword extractions.  `env` gives the outcome of the GET for each query
string. -/
def fetch_links_for_brand (env : String → HttpResult) (brand : String) :
    Except PyExc Row := do
  let w ← search_google (env (brand ++ " official site"))
  let website ← extract_link w "."
  let i ← search_google (env (brand ++ " site:instagram.com"))
  let instagram ← extract_link i "instagram.com"
  let l ← search_google (env (brand ++ " site:linkedin.com/company"))
  let linkedin ← extract_link l "linkedin.com/company"
  return { brandName := brand, website := website, instagram := instagram, linkedin := linkedin }

/-- app.py line 146: `results = [fetch_links_for_brand(brand) for brand in brand_names]`.
A list comprehension propagates the first exception, which the embedding
renders as the Except monad threading through `mapM`. -/
def brandBatch (env : String → HttpResult) (brands : List String) :
    Except PyExc (List Row) :=
  brands.mapM (fetch_links_for_brand env)

/-- Python `str.strip()`: drop whitespace from both ends. -/
def pyStrip (cs : List Char) : List Char :=
  ((cs.dropWhile Char.isWhitespace).reverse.dropWhile Char.isWhitespace).reverse

/-- app.py line 51: `username.strip().split("/")[-1]` — keep only the
characters after the last slash of the stripped input, via the same
left-to-right accumulation the split performs. -/
def lastSeg (cs : List Char) : List Char :=
  cs.foldl (fun acc c => if c = '/' then [] else acc ++ [c]) []

/-- app.py line 51: the full normalization
`username.strip().split("/")[-1].replace("@", "")`; `.replace` with a
one-character pattern removes every occurrence of that character. -/
def scrapeNormalize (s : String) : String :=
  ⟨(lastSeg (pyStrip s.toList)).filter (fun c => c ≠ '@')⟩

/-- Membership test for a character in a character list. -/
def hasChar (c : Char) : List Char → Bool
  | [] => false
  | a :: as => a = c || hasChar c as

/-- The normalization C8 describes, written from the claim: strip
surrounding whitespace, drop everything up to the LAST slash, then strip a
single LEADING at-sign. -/
def lastSegSpec : List Char → List Char
  | [] => []
  | c :: rest =>
    if hasChar '/' rest then lastSegSpec rest
    else if c = '/' then rest else c :: rest

/-- Claim-side normalization for C8 (strip, last path segment, leading @
removed, nothing else altered). -/
def normClaim (s : String) : String :=
  match lastSegSpec (pyStrip s.toList) with
  | '@' :: rest => ⟨rest⟩
  | seg => ⟨seg⟩

/-- A normalized post record (app.py lines 82-86): a dict with exactly the
keys Post URL, Caption, Date. -/
structure Post where
  postURL : Json
  caption : Json
  date : Json

/-- app.py lines 53-57: the request payload sent to the scraping service;
the submitted handle is the normalized input and resultsLimit is 20. -/
def apifyPayload (username : String) : Json :=
  .dict [("usernames", .arr [.str (scrapeNormalize username)]),
         ("resultsLimit", .num 20),
         ("resultsType", .str "posts")]

/-- How scrape_instagram_apify reports each outcome through st.error
(app.py lines 68, 72, 76, 90): four distinct failure classes plus success. -/
inductive ApifyReport where
  | ok
  | transportFailure (msg : String)
  | nonJSONResponse
  | structuredError (payload : Json)
  | shapeMismatch (body : Json)

/-- app.py lines 79-87: the item loop — append one record per dict item,
with `item.get` defaults for url, caption, and takenAtDate (today when the
item has no timestamp); non-dict items are skipped. -/
def mapItems (today : String) : List Json → List Post
  | [] => []
  | item :: rest =>
    match item with
    | .dict e =>
      { postURL := dictGet e "url" (.str ""),
        caption := dictGet e "caption" (.str ""),
        date := dictGet e "takenAtDate" (.str today) } :: mapItems today rest
    | _ => mapItems today rest

/-- Spec-side closed form of the item mapping for C9: a dict item becomes a
Post with the stated defaults, anything else is dropped. -/
def mkPost (today : String) : Json → Option Post
  | .dict e =>
    some { postURL := dictGet e "url" (.str ""),
           caption := dictGet e "caption" (.str ""),
           date := dictGet e "takenAtDate" (.str today) }
  | _ => none

/-- app.py lines 50-91, `scrape_instagram_apify`.  The whole body sits in a
try/except, so nothing raises past this boundary: the result is one of the
four failure reports with an empty list, or `ok` with the mapped items.
`raise_for_status` turns any status of 400 and above into an exception
caught by the outer handler (transport failure); a body that is not JSON is
the inner `except ValueError`; a dict with an "error" key is the structured
service error; any other non-list shape is the mismatch branch.  `today` is
the current date string the code obtains from `datetime.now()`, and
`outcome` the behaviour of `requests.post`. -/
def scrape_instagram_apify (today : String) (outcome : HttpResult)
    (username : String) : ApifyReport × List Post :=
  match outcome with
  | .raise msg => (.transportFailure msg, [])
  | .resp status body =>
    if 400 ≤ status then
      (.transportFailure ("HTTPError " ++ toString status), [])
    else
      match body with
      | none => (.nonJSONResponse, [])
      | some items =>
        match items with
        | .dict e =>
          match List.lookup "error" e with
          | some errVal => (.structuredError errVal, [])
          | none => (.shapeMismatch (.dict e), [])
        | .arr l => (.ok, mapItems today l)
        | other => (.shapeMismatch other, [])

/-- app.py line 94: the caption block of the prompt — one bullet per post
whose Caption is truthy, joined by blank lines. -/
def captionsBlock (posts : List Post) : String :=
  String.intercalate "\n\n"
    ((posts.filter (fun p => p.caption.truthy)).map (fun p => "- " ++ p.caption.pyStr))

/-- app.py lines 95-105: the fixed prompt template around the captions. -/
def promptHeader : String :=
  "\n    You are a social media strategist. Analyze the following Instagram post captions to detect:\n    1. Type of content (reels, promotions, memes, influencer, educational, etc.)\n    2. Campaign patterns (themes or launches)\n    3. Posting tone and frequency\n    4. Brand image or positioning\n    5. Recommend a content strategy\n\n    Captions:\n    "

/-- The template text after the interpolated captions. -/
def promptFooter : String := "\n    "

/-- The complete prompt string sent to the generative model. -/
def summaryPrompt (posts : List Post) : String :=
  promptHeader ++ captionsBlock posts ++ promptFooter

/-- app.py lines 93-107, `analyze_instagram_posts`: build the prompt and
make one blocking call to the generative model.  `gen` is the opaque model;
the second component is the log of prompts actually sent, making the call
count explicit. -/
def analyze_instagram_posts (gen : String → String) (posts : List Post) :
    String × List String :=
  (gen (summaryPrompt posts), [summaryPrompt posts])

/-- Increment the count of one key in an association list of counts,
appending the key with count 1 when absent — one groupby bucket update. -/
def bump : List (String × Nat) → String → List (String × Nat)
  | [], d => [(d, 1)]
  | (k, n) :: rest, d =>
    if k = d then (k, n + 1) :: rest else (k, n) :: bump rest d

/-- One groupby step: rows whose date failed to parse (None / NaT) are
dropped, the rest land in their bucket. -/
def stepCount (acc : List (String × Nat)) (od : Option String) :
    List (String × Nat) :=
  match od with
  | none => acc
  | some d => bump acc d

/-- groupby(...).size() over a column of parsed dates. -/
def groupSize (dates : List (Option String)) : List (String × Nat) :=
  dates.foldl stepCount []

/-- app.py lines 172-173: `pd.to_datetime(df[Date], errors=coerce)`
followed by `groupby(df[Date].dt.date).size()`.  The pandas parser is the
opaque collaborator `parse`: it yields the date component of a Date value,
or none when the value is unparseable (coerced to NaT and then dropped by
groupby). -/
def df_freq (parse : Json → Option String) (posts : List Post) :
    List (String × Nat) :=
  groupSize (posts.map (fun p => parse p.date))

/-- Total count held by a frequency table. -/
def sumCounts (l : List (String × Nat)) : Nat :=
  (l.map Prod.snd).sum

/-- Shape test for a ten-character ISO date YYYY-MM-DD. -/
def isIsoDate : List Char → Bool
  | [a, b, c, d, e, f, g, h, i, j] =>
    a.isDigit && b.isDigit && c.isDigit && d.isDigit && e = '-' &&
    f.isDigit && g.isDigit && h = '-' && i.isDigit && j.isDigit
  | _ => false

/-- Modelled from the spec: pandas to_datetime(errors=coerce) restricted to
the ISO YYYY-MM-DD strings the examples use — such a string parses to
itself as its date component, anything else is unparseable. -/
def pdIsoDate : Json → Option String
  | .str s => if isIsoDate s.toList then some s else none
  | _ => none

/-- Outcome of one run of the Instagram Profile Analyzer section. -/
inductive FlowResult where
  | noPostsWarning
  | report (freq : List (String × Nat)) (insights : String)
deriving Repr, DecidableEq

/-- app.py lines 158-185: the single-handle flow.  Scrape; when the post
list is empty, warn and stop; otherwise compute the frequency table and the
generative analysis and deliver both.  The second component is the log of
generative-model calls issued during the run. -/
def analyzerFlow (today : String) (outcomeOf : Json → HttpResult)
    (gen : String → String) (parse : Json → Option String)
    (handle : String) : FlowResult × List String :=
  let scraped := scrape_instagram_apify today (outcomeOf (apifyPayload handle)) handle
  let posts := scraped.2
  if posts.isEmpty then
    (.noPostsWarning, [])
  else
    let freq := df_freq parse posts
    let analyzed := analyze_instagram_posts gen posts
    (.report freq analyzed.1, analyzed.2)

/-- Well-formed search-result record: a dict whose link field, when
present, is a string — the shape the data model gives search results. -/
def wfSearchItem : Json → Bool
  | .dict e =>
    match List.lookup "link" e with
    | none => true
    | some (.str _) => true
    | some _ => false
  | _ => false

/-- The link string of a well-formed search-result record, with the
`get("link", "")` default. -/
def getLinkStr : Json → String
  | .dict e =>
    match dictGet e "link" (.str "") with
    | .str s => s
    | _ => ""
  | _ => ""

/-- A search outcome that the deployed searches can produce without making
search_google raise: a JSON object body whose items field is absent
(quota or error responses) or a list of well-formed result records. -/
def benign : HttpResult → Bool
  | .raise _ => false
  | .resp _ body =>
    match body with
    | none => false
    | some (.dict e) =>
      match List.lookup "items" e with
      | none => true
      | some (.arr l) => l.all wfSearchItem
      | some _ => false
    | some _ => false

/-- A search outcome carrying no results at all: a JSON object with no
items field, which is how quota and HTTP-error bodies arrive. -/
def quotaLike : HttpResult → Bool
  | .resp _ (some (.dict e)) => (List.lookup "items" e).isNone
  | _ => false

/-- Shape tester: is this JSON value an object. -/
def Json.isDict : Json → Bool
  | .dict _ => true
  | _ => false

/-- Shape tester: is this JSON value a list. -/
def Json.isArr : Json → Bool
  | .arr _ => true
  | _ => false

/-- The three posts of the C5 example, dated 2024-01-01, 2024-01-01 and
2024-01-02. -/
def c5ExamplePosts : List Post :=
  [{ postURL := .str "", caption := .str "", date := .str "2024-01-01" },
   { postURL := .str "", caption := .str "", date := .str "2024-01-01" },
   { postURL := .str "", caption := .str "", date := .str "2024-01-02" }]

/-- A search environment in which every query about brand B raises a
transport error while every other query succeeds with one result. -/
def envC1 : String → HttpResult := fun q =>
  if pyIn "B" q then .raise "boom"
  else .resp 200 (some (.dict
    [("items", .arr [.dict [("link", .str "https://a.example.com")]])]))

end SocialFinder

namespace SocialFinder

/-! ### Helper lemmas about extract_link -/

theorem wfSearchItem_elim (j : Json) (h : wfSearchItem j = true) :
    ∃ e, j = Json.dict e ∧ dictGet e "link" (.str "") = .str (getLinkStr j) := by
  cases j with
  | dict e =>
    refine ⟨e, rfl, ?_⟩
    unfold wfSearchItem at h
    unfold getLinkStr dictGet
    cases hlk : List.lookup "link" e with
    | none => simp [hlk]
    | some v => cases v <;> simp_all [hlk]
  | str s => simp [wfSearchItem] at h
  | num n => simp [wfSearchItem] at h
  | bool b => simp [wfSearchItem] at h
  | null => simp [wfSearchItem] at h
  | arr l => simp [wfSearchItem] at h

theorem extract_link_wf (results : List Json) (kw : String)
    (h : ∀ j ∈ results, wfSearchItem j = true) :
    extract_link results kw =
      .ok (((results.find? fun j => pyIn kw (getLinkStr j)).map getLinkStr).getD "") := by
  induction results with
  | nil => rfl
  | cons item rest ih =>
    have hi : wfSearchItem item = true := h item (List.mem_cons_self _ _)
    have hr : ∀ j ∈ rest, wfSearchItem j = true :=
      fun j hj => h j (List.mem_cons_of_mem _ hj)
    obtain ⟨e, rfl, hget⟩ := wfSearchItem_elim item hi
    by_cases hp : pyIn kw (getLinkStr (Json.dict e)) = true
    · rw [List.find?_cons_of_pos (p := fun j => pyIn kw (getLinkStr j)) rest hp]
      simp only [extract_link, hget, hp, if_true, Option.map_some', Option.getD_some]
    · rw [List.find?_cons_of_neg (p := fun j => pyIn kw (getLinkStr j)) rest hp]
      rw [Bool.not_eq_true] at hp
      simp only [extract_link, hget, hp, if_false]
      exact ih hr

theorem extract_link_ok (results : List Json) (kw : String)
    (h : ∀ j ∈ results, wfSearchItem j = true) :
    ∃ r, extract_link results kw = .ok r := by
  exact ⟨_, extract_link_wf results kw h⟩

theorem pyIn_empty_right (kw : String) (h : kw ≠ "") : pyIn kw "" = false := by
  have : kw.toList ≠ [] := by
    intro hnil
    apply h
    cases kw with
    | mk data =>
      simp only [String.toList, String.data] at hnil
      simp [hnil]
  unfold pyIn scanSub
  simpa [List.isEmpty_iff] using this

/-- C3: link extraction scans the search results in provider order and
returns the link of the first record whose link contains the keyword as a
substring, or the empty string when no record matches; resolving the
Website keyword "." against the two-result example returns the first,
instagram-hosted, link. -/
theorem c3_first_containment_match :
    (∀ (results : List Json) (kw : String),
        (∀ j ∈ results, wfSearchItem j = true) →
        extract_link results kw =
          .ok (((results.find? fun j => pyIn kw (getLinkStr j)).map getLinkStr).getD "")) ∧
    extract_link
        [.dict [("link", .str "a.instagram.com/x")], .dict [("link", .str "brand.com")]]
        "." = .ok "a.instagram.com/x" := by
  constructor
  · exact extract_link_wf
  · rfl

/-- C3 witness: the general clause applied to the concrete two-result
example with the Website keyword. -/
theorem c3_first_containment_match_witness :
    extract_link
        [.dict [("link", .str "a.instagram.com/x")], .dict [("link", .str "brand.com")]]
        "." =
      .ok ((((([.dict [("link", .str "a.instagram.com/x")],
               .dict [("link", .str "brand.com")]] :
                List Json).find? fun j => pyIn "." (getLinkStr j)).map getLinkStr)).getD "") := by
  exact c3_first_containment_match.1
    [.dict [("link", .str "a.instagram.com/x")], .dict [("link", .str "brand.com")]]
    "." (by decide)

/-- C10: on well-formed result records extract_link is total — it returns
normally with either the empty string or the link of some matching record;
a record lacking a link field behaves as the empty-string link, so when the
keyword is non-empty a result list of link-less records yields the empty
string. -/
theorem c10_extract_total :
    ∀ (results : List Json) (kw : String),
      (∀ j ∈ results, wfSearchItem j = true) →
      (∃ r, extract_link results kw = .ok r ∧
        (r = "" ∨ ∃ j ∈ results, r = getLinkStr j ∧ pyIn kw r = true)) ∧
      (kw ≠ "" →
        (∀ j ∈ results, ∀ e, j = Json.dict e → List.lookup "link" e = none) →
        extract_link results kw = .ok "") := by
  intro results kw h
  constructor
  · refine ⟨((results.find? fun j => pyIn kw (getLinkStr j)).map getLinkStr).getD "",
      extract_link_wf results kw h, ?_⟩
    cases hf : results.find? fun j => pyIn kw (getLinkStr j) with
    | none => left; simp
    | some j =>
      right
      refine ⟨j, List.mem_of_find?_eq_some hf, ?_, ?_⟩
      · simp [hf]
      · have := List.find?_some hf
        simpa [hf] using this
  · intro hkw hnolink
    have hfind : (results.find? fun j => pyIn kw (getLinkStr j)) = none := by
      rw [List.find?_eq_none]
      intro j hj
      obtain ⟨e, rfl, hget⟩ := wfSearchItem_elim j (h j hj)
      have hnone := hnolink _ hj e rfl
      have hlink : getLinkStr (Json.dict e) = "" := by
        simp [getLinkStr, dictGet, hnone]
      rw [hlink, pyIn_empty_right kw hkw]
      simp
    rw [extract_link_wf results kw h, hfind]
    rfl

/-- C10 witness: a record with no link field and a non-empty keyword
resolves to the empty string, and the totality clause holds there. -/
theorem c10_extract_total_witness :
    (∃ r, extract_link [.dict [("name", .str "x")]] "instagram.com" = .ok r ∧
      (r = "" ∨ ∃ j ∈ [Json.dict [("name", .str "x")]],
        r = getLinkStr j ∧ pyIn "instagram.com" r = true)) ∧
    extract_link [.dict [("name", .str "x")]] "instagram.com" = .ok "" := by
  have h := c10_extract_total [.dict [("name", .str "x")]] "instagram.com" (by decide)
  refine ⟨h.1, h.2 (by decide) ?_⟩
  intro j hj e hje
  simp only [List.mem_singleton] at hj
  subst hj
  cases hje
  rfl

end SocialFinder

namespace SocialFinder

/-! ### Helper lemmas about handle normalization -/

theorem lastSegSpec_no_slash (cs : List Char) (h : hasChar '/' cs = false) :
    lastSegSpec cs = cs := by
  induction cs with
  | nil => rfl
  | cons c rest ih =>
    rw [hasChar] at h
    simp only [Bool.or_eq_false_iff, decide_eq_false_iff_not] at h
    rw [lastSegSpec, if_neg (by simp [h.2]), if_neg h.1]

theorem lastSeg_foldl (cs : List Char) :
    ∀ acc, cs.foldl (fun acc c => if c = '/' then [] else acc ++ [c]) acc =
      if hasChar '/' cs then lastSegSpec cs else acc ++ cs := by
  induction cs with
  | nil => intro acc; simp [hasChar]
  | cons c rest ih =>
    intro acc
    rw [List.foldl_cons, ih]
    by_cases hc : c = '/'
    · subst hc
      by_cases hrest : hasChar '/' rest = true
      · simp [hasChar, hrest, lastSegSpec]
      · simp [hasChar, hrest, lastSegSpec]
    · by_cases hrest : hasChar '/' rest = true
      · simp [hasChar, hrest, lastSegSpec, hc]
      · simp [hasChar, hrest, lastSegSpec, hc]

theorem lastSeg_eq_spec (cs : List Char) : lastSeg cs = lastSegSpec cs := by
  unfold lastSeg
  rw [lastSeg_foldl cs []]
  by_cases h : hasChar '/' cs = true
  · rw [if_pos h]
  · rw [if_neg h]
    rw [lastSegSpec_no_slash cs (by simpa using h)]
    simp

theorem filter_of_all_ne (l : List Char)
    (h : l.all (fun c => c ≠ '@') = true) : l.filter (fun c => c ≠ '@') = l := by
  rw [List.filter_eq_self]
  intro a ha
  exact (List.all_eq_true.mp h) a ha

/-- C8 counterexample: the code removes EVERY at-sign from the final path
segment, not only a leading one — on an input with an interior at-sign the
submitted handle differs from what the claim predicts (the claim-side
normalization leaves that input unchanged). -/
theorem c8_counterexample :
    scrapeNormalize "insta@gram" = "instagram" ∧
    normClaim "insta@gram" = "insta@gram" ∧
    ("instagram" : String) ≠ "insta@gram" := by
  refine ⟨by decide, by decide, by decide⟩

/-- C8 amended: the normalization trims surrounding whitespace, keeps the
final path segment (everything after the last slash), and removes EVERY
at-sign from it; when the segment contains an at-sign only as its leading
character this agrees with the claim (leading at-sign stripped, nothing
else altered). -/
theorem c8_amended :
    ∀ s : String,
      scrapeNormalize s = ⟨(lastSegSpec (pyStrip s.toList)).filter (fun c => c ≠ '@')⟩ ∧
      ((lastSegSpec (pyStrip s.toList)).tail.all (fun c => c ≠ '@') = true →
        scrapeNormalize s = normClaim s) := by
  intro s
  have hfull : scrapeNormalize s =
      ⟨(lastSegSpec (pyStrip s.toList)).filter (fun c => c ≠ '@')⟩ := by
    unfold scrapeNormalize
    rw [lastSeg_eq_spec]
  refine ⟨hfull, ?_⟩
  intro htail
  rw [hfull]
  unfold normClaim
  cases hseg : lastSegSpec (pyStrip s.toList) with
  | nil => simp
  | cons c rest =>
    rw [hseg] at htail
    simp only [List.tail_cons] at htail
    by_cases hc : c = '@'
    · subst hc
      split
      next r heq =>
        injection heq with h1 h2
        subst h2
        rw [List.filter_cons, if_neg (by simp)]
        rw [filter_of_all_ne rest htail]
      next hne =>
        exact absurd rfl (hne rest)
    · split
      next r heq =>
        injection heq with h1 h2
        exact absurd h1 hc
      next hne =>
        rw [List.filter_cons, if_pos (by simpa using hc)]
        rw [filter_of_all_ne rest htail]

/-- C8 witness: the amended theorem applied to a profile URL whose final
segment carries only a leading at-sign. -/
theorem c8_amended_witness :
    scrapeNormalize "  https://instagram.com/@nike " =
      normClaim "  https://instagram.com/@nike " := by
  exact (c8_amended "  https://instagram.com/@nike ").2 (by decide)

end SocialFinder

namespace SocialFinder

/-! ### Helper lemmas about the scraping-service item mapping -/

theorem mapItems_eq_filterMap (today : String) (items : List Json) :
    mapItems today items = items.filterMap (mkPost today) := by
  induction items with
  | nil => rfl
  | cons item rest ih =>
    cases item with
    | dict e => simp [mapItems, mkPost, List.filterMap_cons, ih]
    | str v => simp [mapItems, mkPost, List.filterMap_cons, ih]
    | num v => simp [mapItems, mkPost, List.filterMap_cons, ih]
    | bool v => simp [mapItems, mkPost, List.filterMap_cons, ih]
    | null => simp [mapItems, mkPost, List.filterMap_cons, ih]
    | arr v => simp [mapItems, mkPost, List.filterMap_cons, ih]

theorem mapItems_length_le (today : String) (items : List Json) :
    (mapItems today items).length ≤ items.length := by
  induction items with
  | nil => simp [mapItems]
  | cons item rest ih =>
    cases item <;> simp only [mapItems, List.length_cons] <;> omega

theorem scrape_list_shape (today username : String) (s : Nat) (items : List Json)
    (hs : s < 400) :
    scrape_instagram_apify today (.resp s (some (.arr items))) username =
      (.ok, mapItems today items) := by
  simp only [scrape_instagram_apify]
  rw [if_neg (by omega)]

/-- C2 counterexample: the code does not truncate the response list — a
service response carrying 21 items produces 21 Post records, so the
returned sequence is not capped at 20. -/
theorem c2_counterexample :
    ¬ ((scrape_instagram_apify "2024-06-01"
          (.resp 200 (some (.arr (List.replicate 21 (.dict []))))) "h").2.length ≤ 20) ∧
    (scrape_instagram_apify "2024-06-01"
        (.resp 200 (some (.arr (List.replicate 21 (.dict []))))) "h").2.length = 21 := by
  refine ⟨by decide, by decide⟩

/-- C2 amended: the cap of 20 is requested from the service — the payload
carries resultsLimit 20 — but not enforced locally: the function returns at
most one Post per element of the response list, so its output has at most
20 records exactly when the service honours the requested limit. -/
theorem c2_amended :
    ∀ (today username : String) (s : Nat) (items : List Json), s < 400 →
      (∃ e, apifyPayload username = .dict e ∧
          List.lookup "resultsLimit" e = some (.num 20)) ∧
      (scrape_instagram_apify today (.resp s (some (.arr items))) username).2.length ≤
        items.length ∧
      (items.length ≤ 20 →
        (scrape_instagram_apify today (.resp s (some (.arr items))) username).2.length ≤ 20) := by
  intro today username s items hs
  rw [scrape_list_shape today username s items hs]
  refine ⟨⟨_, rfl, rfl⟩, mapItems_length_le today items, ?_⟩
  intro h20
  exact le_trans (mapItems_length_le today items) h20

/-- C2 witness: the amended theorem at a one-item response. -/
theorem c2_amended_witness :
    (∃ e, apifyPayload "u" = .dict e ∧
        List.lookup "resultsLimit" e = some (.num 20)) ∧
    (scrape_instagram_apify "d" (.resp 200 (some (.arr [.dict []]))) "u").2.length ≤ 1 ∧
    (scrape_instagram_apify "d" (.resp 200 (some (.arr [.dict []]))) "u").2.length ≤ 20 := by
  have h := c2_amended "d" "u" 200 [.dict []] (by omega)
  exact ⟨h.1, by simpa using h.2.1, h.2.2 (by decide)⟩

/-- C4: the hosted-service ingestion never raises past its boundary and
distinguishes its four failure classes — transport failure (a raising call
or a status of 400 and above), non-JSON body, JSON dict carrying an error
field, and a JSON top-level value that is not a list — returning the empty
Post list in every one of them; the non-list response with an error field
is reported as the structured error, not as a transport failure. -/
theorem c4_failure_classes :
    (∀ (today username m : String),
        scrape_instagram_apify today (.raise m) username = (.transportFailure m, [])) ∧
    (∀ (today username : String) (s : Nat) (body : Option Json), 400 ≤ s →
        scrape_instagram_apify today (.resp s body) username =
          (.transportFailure ("HTTPError " ++ toString s), [])) ∧
    (∀ (today username : String) (s : Nat), s < 400 →
        scrape_instagram_apify today (.resp s none) username = (.nonJSONResponse, [])) ∧
    (∀ (today username : String) (s : Nat) (e : List (String × Json)) (v : Json),
        s < 400 → List.lookup "error" e = some v →
        scrape_instagram_apify today (.resp s (some (.dict e))) username =
          (.structuredError v, [])) ∧
    (∀ (today username : String) (s : Nat) (e : List (String × Json)),
        s < 400 → List.lookup "error" e = none →
        scrape_instagram_apify today (.resp s (some (.dict e))) username =
          (.shapeMismatch (.dict e), [])) ∧
    (∀ (today username : String) (s : Nat) (x : Json),
        s < 400 → x.isDict = false → x.isArr = false →
        scrape_instagram_apify today (.resp s (some x)) username =
          (.shapeMismatch x, [])) ∧
    (scrape_instagram_apify "2024-06-01"
        (.resp 200 (some (.dict [("error", .str "rate limited")]))) "h" =
      (.structuredError (.str "rate limited"), []) ∧
     ∀ m, (ApifyReport.structuredError (.str "rate limited")) ≠ .transportFailure m) := by
  refine ⟨?_, ?_, ?_, ?_, ?_, ?_, ?_, ?_⟩
  · intro today username m; rfl
  · intro today username s body hs
    simp only [scrape_instagram_apify]
    rw [if_pos hs]
  · intro today username s hs
    simp only [scrape_instagram_apify]
    rw [if_neg (by omega)]
  · intro today username s e v hs hlk
    simp only [scrape_instagram_apify]
    rw [if_neg (by omega)]
    simp [hlk]
  · intro today username s e hs hlk
    simp only [scrape_instagram_apify]
    rw [if_neg (by omega)]
    simp [hlk]
  · intro today username s x hs hd ha
    have hnot : ¬ (400 ≤ s) := by omega
    cases x <;> simp_all [scrape_instagram_apify, Json.isDict, Json.isArr]
  · rfl
  · intro m h
    exact ApifyReport.noConfusion h

/-- C4 witness: each failure class exercised at a concrete response. -/
theorem c4_failure_classes_witness :
    scrape_instagram_apify "d" (.resp 500 none) "u" =
      (.transportFailure ("HTTPError " ++ toString 500), []) ∧
    scrape_instagram_apify "d" (.resp 200 none) "u" = (.nonJSONResponse, []) ∧
    scrape_instagram_apify "d" (.resp 200 (some (.dict [("error", .str "x")]))) "u" =
      (.structuredError (.str "x"), []) ∧
    scrape_instagram_apify "d" (.resp 200 (some (.dict [("ok", .null)]))) "u" =
      (.shapeMismatch (.dict [("ok", .null)]), []) ∧
    scrape_instagram_apify "d" (.resp 200 (some (.str "hi"))) "u" =
      (.shapeMismatch (.str "hi"), []) := by
  refine ⟨c4_failure_classes.2.1 "d" "u" 500 none (by omega),
    c4_failure_classes.2.2.1 "d" "u" 200 (by omega),
    c4_failure_classes.2.2.2.1 "d" "u" 200 [("error", .str "x")] (.str "x") (by omega) rfl,
    c4_failure_classes.2.2.2.2.1 "d" "u" 200 [("ok", .null)] (by omega) rfl,
    c4_failure_classes.2.2.2.2.2.1 "d" "u" 200 (.str "hi") (by omega) rfl rfl⟩

/-- C9: on a list-shaped response the mapping keeps exactly the dict items
(non-dicts are silently skipped, the report stays ok) and each produced
Post takes the url and caption fields with empty-string defaults and the
takenAtDate field defaulting to the current date. -/
theorem c9_item_mapping :
    (∀ (today username : String) (s : Nat) (items : List Json), s < 400 →
        scrape_instagram_apify today (.resp s (some (.arr items))) username =
          (.ok, items.filterMap (mkPost today))) ∧
    (∀ (today : String) (e : List (String × Json)) (p : Post),
        mkPost today (.dict e) = some p →
        (List.lookup "url" e = none → p.postURL = .str "") ∧
        (List.lookup "caption" e = none → p.caption = .str "") ∧
        (List.lookup "takenAtDate" e = none → p.date = .str today)) ∧
    (∀ (today : String) (j : Json), j.isDict = false → mkPost today j = none) := by
  refine ⟨?_, ?_, ?_⟩
  · intro today username s items hs
    rw [scrape_list_shape today username s items hs, mapItems_eq_filterMap]
  · intro today e p hp
    rw [mkPost] at hp
    injection hp with hp
    subst hp
    refine ⟨?_, ?_, ?_⟩
    · intro h; simp [dictGet, h]
    · intro h; simp [dictGet, h]
    · intro h; simp [dictGet, h]
  · intro today j hj
    cases j <;> simp_all [mkPost, Json.isDict]

/-- C9 witness: a response mixing a full item, an empty dict and a
non-dict element. -/
theorem c9_item_mapping_witness :
    scrape_instagram_apify "2024-06-01"
        (.resp 200 (some (.arr [.dict [("url", .str "u1"), ("caption", .str "c1"),
            ("takenAtDate", .str "2024-05-30")], .dict [], .str "junk"]))) "h" =
      (.ok, ([.dict [("url", .str "u1"), ("caption", .str "c1"),
            ("takenAtDate", .str "2024-05-30")], .dict [], .str "junk"] :
          List Json).filterMap (mkPost "2024-06-01")) ∧
    mkPost "2024-06-01" (.str "junk") = none := by
  refine ⟨c9_item_mapping.1 "2024-06-01" "h" 200 _ (by omega),
    c9_item_mapping.2.2 "2024-06-01" (.str "junk") rfl⟩

end SocialFinder

namespace SocialFinder

/-! ### Helper lemmas about the frequency aggregation -/

theorem lookup_bump_self (acc : List (String × Nat)) (d : String) :
    List.lookup d (bump acc d) = some ((List.lookup d acc).getD 0 + 1) := by
  induction acc with
  | nil => simp [bump, List.lookup]
  | cons kv rest ih =>
    obtain ⟨k, n⟩ := kv
    by_cases hk : k = d
    · subst hk
      simp [bump, List.lookup]
    · have hne : (d == k) = false := by
        simp only [beq_eq_false_iff_ne, ne_eq]
        exact fun h => hk h.symm
      simp [bump, hk, List.lookup, hne, ih]

theorem lookup_bump_ne (acc : List (String × Nat)) (d d' : String)
    (h : d' ≠ d) : List.lookup d' (bump acc d) = List.lookup d' acc := by
  induction acc with
  | nil =>
    have hne : (d' == d) = false := by simpa [beq_eq_false_iff_ne] using h
    simp [bump, List.lookup, hne]
  | cons kv rest ih =>
    obtain ⟨k, n⟩ := kv
    by_cases hk : k = d
    · subst hk
      have hne : (d' == k) = false := by simpa [beq_eq_false_iff_ne] using h
      simp [bump, List.lookup, hne]
    · simp [bump, hk, List.lookup, ih]

theorem sumCounts_bump (acc : List (String × Nat)) (d : String) :
    sumCounts (bump acc d) = sumCounts acc + 1 := by
  induction acc with
  | nil => simp [bump, sumCounts]
  | cons kv rest ih =>
    obtain ⟨k, n⟩ := kv
    by_cases hk : k = d
    · subst hk
      simp [bump, sumCounts]
      omega
    · simp only [bump, hk, if_false, sumCounts, List.map_cons, List.sum_cons] at ih ⊢
      omega

theorem foldl_stepCount_sum (dates : List (Option String)) :
    ∀ acc, sumCounts (dates.foldl stepCount acc) =
      sumCounts acc + (dates.filterMap id).length := by
  induction dates with
  | nil => intro acc; simp
  | cons od rest ih =>
    intro acc
    cases od with
    | none => simpa [stepCount] using ih acc
    | some d0 =>
      rw [List.foldl_cons, show stepCount acc (some d0) = bump acc d0 from rfl, ih]
      rw [sumCounts_bump]
      simp [List.filterMap_cons]
      omega

theorem foldl_stepCount_lookup (dates : List (Option String)) :
    ∀ (acc : List (String × Nat)) (d : String),
      List.lookup d (dates.foldl stepCount acc) =
        (match List.lookup d acc with
         | some n => some (n + (dates.filterMap id).count d)
         | none =>
           if (dates.filterMap id).count d = 0 then none
           else some ((dates.filterMap id).count d)) := by
  induction dates with
  | nil =>
    intro acc d
    rw [List.foldl_nil]
    cases List.lookup d acc <;> simp
  | cons od rest ih =>
    intro acc d
    cases od with
    | none =>
      rw [List.foldl_cons, show stepCount acc none = acc from rfl, ih]
      simp [List.filterMap_cons]
    | some d0 =>
      rw [List.foldl_cons, show stepCount acc (some d0) = bump acc d0 from rfl,
        ih (bump acc d0) d]
      have hcons : (List.filterMap id (some d0 :: rest)) = d0 :: List.filterMap id rest := by
        simp [List.filterMap_cons]
      rw [hcons]
      by_cases hd : d = d0
      · subst hd
        rw [lookup_bump_self, List.count_cons_self]
        cases hacc : List.lookup d acc with
        | some n => simp [hacc]; omega
        | none => simp [hacc]; omega
      · rw [lookup_bump_ne acc d0 d hd, List.count_cons_of_ne hd]

theorem filterMap_length_add (parse : Json → Option String) (posts : List Post) :
    (posts.filterMap (fun p => parse p.date)).length +
      (posts.filter (fun p => (parse p.date).isNone)).length = posts.length := by
  induction posts with
  | nil => simp
  | cons p rest ih =>
    cases hp : parse p.date with
    | none => simp [List.filterMap_cons, List.filter_cons, hp]; omega
    | some d => simp [List.filterMap_cons, List.filter_cons, hp]; omega

theorem map_then_filterMap_id (parse : Json → Option String) (posts : List Post) :
    (posts.map (fun p => parse p.date)).filterMap id =
      posts.filterMap (fun p => parse p.date) := by
  rw [List.filterMap_map]
  rfl

/-- C5: the frequency aggregation maps each parseable date to the number
of posts carrying it (dropping unparseable dates without raising), its
counts sum to the input length minus the number of unparseable dates, and
on the three-post example it yields 2024-01-01 twice and 2024-01-02 once. -/
theorem c5_frequency :
    (∀ (parse : Json → Option String) (posts : List Post) (d : String),
        List.lookup d (df_freq parse posts) =
          (if (posts.filterMap (fun p => parse p.date)).count d = 0 then none
           else some ((posts.filterMap (fun p => parse p.date)).count d))) ∧
    (∀ (parse : Json → Option String) (posts : List Post),
        sumCounts (df_freq parse posts) =
          posts.length - (posts.filter (fun p => (parse p.date).isNone)).length) ∧
    (List.lookup "2024-01-01" (df_freq pdIsoDate c5ExamplePosts) = some 2 ∧
     List.lookup "2024-01-02" (df_freq pdIsoDate c5ExamplePosts) = some 1) := by
  refine ⟨?_, ?_, by decide, by decide⟩
  · intro parse posts d
    unfold df_freq groupSize
    rw [foldl_stepCount_lookup, map_then_filterMap_id]
    simp [List.lookup]
  · intro parse posts
    unfold df_freq groupSize
    rw [foldl_stepCount_sum, map_then_filterMap_id]
    have h := filterMap_length_add parse posts
    simp [sumCounts]
    omega

end SocialFinder

namespace SocialFinder

/-! ### Lemmas about the summarizer and the analyzer flow -/

theorem captionsBlock_map (l : List Post) :
    l.map (fun p => "- " ++ p.caption.pyStr) =
      (l.map (fun p => p.caption.pyStr)).map (fun s => "- " ++ s) := by
  rw [List.map_map]
  rfl

/-- C6: the summarization prompt is built from exactly the truthy captions
— posts with empty captions contribute nothing and no other field of any
post enters the prompt — and the generative call is issued exactly once,
also when the input is empty or every caption is empty. -/
theorem c6_summarizer :
    (∀ (gen : String → String) (posts : List Post),
        (analyze_instagram_posts gen posts).2 = [summaryPrompt posts] ∧
        (analyze_instagram_posts gen posts).2.length = 1) ∧
    (∀ posts : List Post,
        summaryPrompt posts = summaryPrompt (posts.filter (fun p => p.caption.truthy))) ∧
    (∀ (posts posts' : List Post),
        (posts.filter (fun p => p.caption.truthy)).map (fun p => p.caption.pyStr) =
          (posts'.filter (fun p => p.caption.truthy)).map (fun p => p.caption.pyStr) →
        summaryPrompt posts = summaryPrompt posts') ∧
    (∀ (gen : String → String) (posts : List Post),
        (∀ p ∈ posts, p.caption.truthy = false) →
        analyze_instagram_posts gen posts = analyze_instagram_posts gen []) := by
  refine ⟨?_, ?_, ?_, ?_⟩
  · intro gen posts
    exact ⟨rfl, rfl⟩
  · intro posts
    unfold summaryPrompt captionsBlock
    rw [List.filter_filter]
    simp
  · intro posts posts' h
    unfold summaryPrompt captionsBlock
    rw [captionsBlock_map, captionsBlock_map, h]
  · intro gen posts hall
    have hf : posts.filter (fun p => p.caption.truthy) = [] := by
      rw [List.filter_eq_nil_iff]
      intro a ha
      simp [hall a ha]
    have hp : summaryPrompt posts = summaryPrompt [] := by
      unfold summaryPrompt captionsBlock
      rw [hf]
      rfl
    unfold analyze_instagram_posts
    rw [hp]

/-- C6 witness: prompt equality across posts differing only in URL, date
and an empty-caption post, and the call still issued on all-empty input. -/
theorem c6_summarizer_witness :
    summaryPrompt [{ postURL := .str "u1", caption := .str "hello", date := .str "d1" }] =
      summaryPrompt [{ postURL := .str "u2", caption := .str "hello", date := .str "d2" },
        { postURL := .str "u3", caption := .str "", date := .str "d3" }] ∧
    analyze_instagram_posts (fun s => s)
        [{ postURL := .str "u", caption := .str "", date := .str "d" }] =
      analyze_instagram_posts (fun s => s) [] := by
  refine ⟨c6_summarizer.2.2.1 _ _ (by decide), c6_summarizer.2.2.2 (fun s => s) _ (by decide)⟩

/-- C7: when ingestion returns no posts the flow stops at the warning —
neither the aggregation nor the generative call happens (the outcome is
independent of both collaborators and the call log is empty) — and when
posts exist the frequency table and the analysis of exactly those posts are
delivered together, with one generative call consuming only the post list. -/
theorem c7_flow :
    ∀ (today : String) (outcomeOf : Json → HttpResult) (gen : String → String)
      (parse : Json → Option String) (handle : String),
      ((scrape_instagram_apify today (outcomeOf (apifyPayload handle)) handle).2 = [] →
        analyzerFlow today outcomeOf gen parse handle = (.noPostsWarning, []) ∧
        ∀ (gen' : String → String) (parse' : Json → Option String),
          analyzerFlow today outcomeOf gen' parse' handle =
            analyzerFlow today outcomeOf gen parse handle) ∧
      (∀ posts : List Post,
        (scrape_instagram_apify today (outcomeOf (apifyPayload handle)) handle).2 = posts →
        posts ≠ [] →
        analyzerFlow today outcomeOf gen parse handle =
          (.report (df_freq parse posts) (gen (summaryPrompt posts)),
           [summaryPrompt posts])) := by
  intro today outcomeOf gen parse handle
  constructor
  · intro hempty
    have h1 : ∀ (g : String → String) (pr : Json → Option String),
        analyzerFlow today outcomeOf g pr handle = (.noPostsWarning, []) := by
      intro g pr
      simp only [analyzerFlow]
      rw [hempty]
      rfl
    exact ⟨h1 gen parse, fun gen' parse' => (h1 gen' parse').trans (h1 gen parse).symm⟩
  · intro posts hposts hne
    have hne2 : posts.isEmpty = false := by
      simpa [List.isEmpty_iff] using hne
    simp only [analyzerFlow]
    rw [hposts, hne2]
    rfl

/-- C7 witness: an empty scrape stops at the warning; a one-post scrape
delivers the frequency table and the analysis together. -/
theorem c7_flow_witness :
    analyzerFlow "2024-06-01" (fun _ => .resp 200 (some (.arr []))) (fun s => s)
        pdIsoDate "nike" = (.noPostsWarning, []) ∧
    analyzerFlow "2024-06-01"
        (fun _ => .resp 200 (some (.arr [.dict [("caption", .str "hi")]])))
        (fun s => s) pdIsoDate "nike" =
      (.report
        (df_freq pdIsoDate
          [{ postURL := .str "", caption := .str "hi", date := .str "2024-06-01" }])
        (summaryPrompt
          [{ postURL := .str "", caption := .str "hi", date := .str "2024-06-01" }]),
       [summaryPrompt
          [{ postURL := .str "", caption := .str "hi", date := .str "2024-06-01" }]]) := by
  constructor
  · exact ((c7_flow "2024-06-01" (fun _ => .resp 200 (some (.arr []))) (fun s => s)
      pdIsoDate "nike").1 rfl).1
  · exact (c7_flow "2024-06-01"
      (fun _ => .resp 200 (some (.arr [.dict [("caption", .str "hi")]])))
      (fun s => s) pdIsoDate "nike").2
      [{ postURL := .str "", caption := .str "hi", date := .str "2024-06-01" }]
      rfl (by simp)

end SocialFinder

namespace SocialFinder

/-! ### Lemmas about search, benign outcomes and the batch -/

theorem except_bind_ok {α β γ : Type} (a : α) (f : α → Except γ β) :
    (Except.ok a : Except γ α) >>= f = f a := rfl

theorem search_benign (o : HttpResult) (h : benign o = true) :
    ∃ l, search_google o = .ok l ∧ (∀ j ∈ l, wfSearchItem j = true) ∧
      (quotaLike o = true → l = []) := by
  cases o with
  | raise m => simp [benign] at h
  | resp s body =>
    cases body with
    | none => simp [benign] at h
    | some j =>
      cases j with
      | dict e =>
        cases hlk : List.lookup "items" e with
        | none =>
          refine ⟨[], ?_, by simp, fun _ => rfl⟩
          simp [search_google, hlk]
        | some v =>
          cases v with
          | arr l =>
            refine ⟨l, by simp [search_google, hlk], ?_, ?_⟩
            · simp only [benign] at h
              rw [hlk] at h
              intro j hj
              exact List.all_eq_true.mp h j hj
            · intro hq
              simp only [quotaLike] at hq
              rw [hlk] at hq
              simp at hq
          | str v => simp only [benign] at h; rw [hlk] at h; simp at h
          | num v => simp only [benign] at h; rw [hlk] at h; simp at h
          | bool v => simp only [benign] at h; rw [hlk] at h; simp at h
          | null => simp only [benign] at h; rw [hlk] at h; simp at h
          | dict v => simp only [benign] at h; rw [hlk] at h; simp at h
      | str v => simp [benign] at h
      | num v => simp [benign] at h
      | bool v => simp [benign] at h
      | null => simp [benign] at h
      | arr v => simp [benign] at h

theorem fetch_links_benign (env : String → HttpResult) (brand : String)
    (h1 : benign (env (brand ++ " official site")) = true)
    (h2 : benign (env (brand ++ " site:instagram.com")) = true)
    (h3 : benign (env (brand ++ " site:linkedin.com/company")) = true) :
    ∃ row, fetch_links_for_brand env brand = .ok row ∧ row.brandName = brand ∧
      (quotaLike (env (brand ++ " official site")) = true →
       quotaLike (env (brand ++ " site:instagram.com")) = true →
       quotaLike (env (brand ++ " site:linkedin.com/company")) = true →
       row = ⟨brand, "", "", ""⟩) := by
  obtain ⟨l1, hs1, hw1, hq1⟩ := search_benign _ h1
  obtain ⟨l2, hs2, hw2, hq2⟩ := search_benign _ h2
  obtain ⟨l3, hs3, hw3, hq3⟩ := search_benign _ h3
  obtain ⟨r1, he1⟩ := extract_link_ok l1 "." hw1
  obtain ⟨r2, he2⟩ := extract_link_ok l2 "instagram.com" hw2
  obtain ⟨r3, he3⟩ := extract_link_ok l3 "linkedin.com/company" hw3
  refine ⟨⟨brand, r1, r2, r3⟩, ?_, rfl, ?_⟩
  · unfold fetch_links_for_brand
    rw [hs1, except_bind_ok, he1, except_bind_ok, hs2, except_bind_ok, he2,
      except_bind_ok, hs3, except_bind_ok, he3, except_bind_ok]
    rfl
  · intro q1 q2 q3
    have e1 : r1 = "" := by
      rw [hq1 q1] at he1
      exact (Except.ok.inj he1).symm
    have e2 : r2 = "" := by
      rw [hq2 q2] at he2
      exact (Except.ok.inj he2).symm
    have e3 : r3 = "" := by
      rw [hq3 q3] at he3
      exact (Except.ok.inj he3).symm
    rw [e1, e2, e3]

theorem brandBatch_benign (env : String → HttpResult) :
    ∀ brands : List String,
      (∀ b ∈ brands, benign (env (b ++ " official site")) = true ∧
        benign (env (b ++ " site:instagram.com")) = true ∧
        benign (env (b ++ " site:linkedin.com/company")) = true) →
      ∃ rows, brandBatch env brands = .ok rows ∧ rows.map Row.brandName = brands := by
  intro brands
  induction brands with
  | nil => intro h; exact ⟨[], rfl, rfl⟩
  | cons b bs ih =>
    intro h
    obtain ⟨hb1, hb2, hb3⟩ := h b (List.mem_cons_self _ _)
    obtain ⟨row, hrow, hname, _⟩ := fetch_links_benign env b hb1 hb2 hb3
    obtain ⟨rows, hrows, hmap⟩ := ih (fun x hx => h x (List.mem_cons_of_mem _ hx))
    refine ⟨row :: rows, ?_, ?_⟩
    · unfold brandBatch at hrows ⊢
      rw [List.mapM_cons, hrow, except_bind_ok, hrows, except_bind_ok]
      rfl
    · simp [hmap, hname]

/-- C1 counterexample: search_google has no exception handler — a raising
transport call is not recovered to an empty result but propagates, and a
batch over brands A and B where the B queries raise returns no rows at all:
the exception escapes instead of yielding one row per brand. -/
theorem c1_counterexample :
    search_google (HttpResult.raise "boom") = .error (.transport "boom") ∧
    brandBatch envC1 ["A", "B"] = .error (.transport "boom") := by
  exact ⟨rfl, rfl⟩

/-- C1 amended: only quota- or HTTP-error responses that still deliver a
JSON object body are recovered to an empty result (the code reads the
items field of whatever JSON arrives and never checks the status); under
such benign outcomes the batch returns exactly one row per brand in order,
with all link fields empty for a brand whose three queries carried no
items, but an exception raised by the transport aborts the whole batch. -/
theorem c1_amended :
    (∀ (env : String → HttpResult) (brand : String),
        benign (env (brand ++ " official site")) = true →
        benign (env (brand ++ " site:instagram.com")) = true →
        benign (env (brand ++ " site:linkedin.com/company")) = true →
        ∃ row, fetch_links_for_brand env brand = .ok row ∧ row.brandName = brand ∧
          (quotaLike (env (brand ++ " official site")) = true →
           quotaLike (env (brand ++ " site:instagram.com")) = true →
           quotaLike (env (brand ++ " site:linkedin.com/company")) = true →
           row = ⟨brand, "", "", ""⟩)) ∧
    (∀ (env : String → HttpResult) (brands : List String),
        (∀ b ∈ brands, benign (env (b ++ " official site")) = true ∧
          benign (env (b ++ " site:instagram.com")) = true ∧
          benign (env (b ++ " site:linkedin.com/company")) = true) →
        ∃ rows, brandBatch env brands = .ok rows ∧ rows.map Row.brandName = brands) :=
  ⟨fetch_links_benign, brandBatch_benign⟩

/-- C1 witness: a benign success environment yields one named row, a
quota-style environment yields the all-empty row, and a one-brand batch
returns exactly its row. -/
theorem c1_amended_witness :
    (∃ row, fetch_links_for_brand
        (fun _ => .resp 200 (some (.dict [("items",
          .arr [.dict [("link", .str "https://x.instagram.com/p")]])]))) "Acme" =
      .ok row ∧ row.brandName = "Acme" ∧
      (quotaLike ((fun (_ : String) => HttpResult.resp 200 (some (.dict [("items",
          .arr [.dict [("link", .str "https://x.instagram.com/p")]])])))
            ("Acme" ++ " official site")) = true →
       quotaLike ((fun (_ : String) => HttpResult.resp 200 (some (.dict [("items",
          .arr [.dict [("link", .str "https://x.instagram.com/p")]])])))
            ("Acme" ++ " site:instagram.com")) = true →
       quotaLike ((fun (_ : String) => HttpResult.resp 200 (some (.dict [("items",
          .arr [.dict [("link", .str "https://x.instagram.com/p")]])])))
            ("Acme" ++ " site:linkedin.com/company")) = true →
       row = ⟨"Acme", "", "", ""⟩)) ∧
    fetch_links_for_brand
        (fun _ => .resp 429 (some (.dict [("error", .str "quota")]))) "Acme" =
      .ok ⟨"Acme", "", "", ""⟩ ∧
    (∃ rows, brandBatch
        (fun _ => .resp 429 (some (.dict [("error", .str "quota")]))) ["Acme"] =
      .ok rows ∧ rows.map Row.brandName = ["Acme"]) := by
  refine ⟨c1_amended.1 _ "Acme" rfl rfl rfl, ?_, c1_amended.2 _ ["Acme"] ?_⟩
  · obtain ⟨row, hr, hn, hq⟩ :=
      c1_amended.1 (fun _ => .resp 429 (some (.dict [("error", .str "quota")])))
        "Acme" rfl rfl rfl
    rw [hq rfl rfl rfl] at hr
    exact hr
  · intro b hb
    simp only [List.mem_singleton] at hb
    subst hb
    exact ⟨rfl, rfl, rfl⟩

end SocialFinder
